import Mathlib

/-!
Verification of the LMS backend's authentication / authorization pipeline and
error pipeline against its documented behaviour.

The JavaScript source is shallowly embedded: every definition below mirrors one
function of the repository (file and function named in its doc comment).
Timestamps are naturals (milliseconds since the epoch, as produced by
`Date.now()` / `Date.prototype.getTime()`); JWT `iat` values are naturals in
whole seconds, as recorded by the token codec.  JavaScript `undefined` / `null`
fields are `Option`; JavaScript truthiness tests are modelled by explicit
`jsTruthy…` helpers.
-/

namespace LMS

/-! ## JavaScript string and number primitives used by the source -/

/-- `str.startsWith(pre)`. -/
def strStartsWith (s pre : String) : Bool := pre.toList.isPrefixOf s.toList

/-- Accumulator loop behind `jsSplitChar`. -/
def splitCharAux (sep : Char) : List Char → List Char → List String
  | [], acc => [String.mk acc.reverse]
  | c :: rest, acc =>
    if c = sep then String.mk acc.reverse :: splitCharAux sep rest []
    else splitCharAux sep rest (c :: acc)

/-- `str.split(sep)` for a one-character separator, with JavaScript semantics:
`"".split('-') = [""]`, separators at the ends produce empty segments. -/
def jsSplitChar (sep : Char) (s : String) : List String := splitCharAux sep s.toList []

/-- Numeric value of a decimal digit character, if it is one. -/
def decDigitVal (c : Char) : Option Nat := if c.isDigit then some (c.toNat - 48) else none

/-- Numeric value of a hexadecimal digit character, if it is one. -/
def hexDigitVal (c : Char) : Option Nat :=
  if c.isDigit then some (c.toNat - 48)
  else if 'a' ≤ c ∧ c ≤ 'f' then some (c.toNat - 87)
  else if 'A' ≤ c ∧ c ≤ 'F' then some (c.toNat - 55)
  else none

/-- Value of the longest prefix of digits (given base), `none` if there is none. -/
def leadingNum (base : Nat) (digitVal : Char → Option Nat) (cs : List Char) : Option Nat :=
  match cs.takeWhile (fun c => (digitVal c).isSome) with
  | [] => none
  | ds => some (ds.foldl (fun a c => a * base + (digitVal c).getD 0) 0)

/-- Magnitude part of `parseInt`: an optional `0x` / `0X` prefix selects base 16,
otherwise the longest decimal-digit prefix is taken. -/
def parseIntAbs : List Char → Option Nat
  | '0' :: c :: rest =>
    if c = 'x' ∨ c = 'X' then leadingNum 16 hexDigitVal rest
    else leadingNum 10 decDigitVal ('0' :: c :: rest)
  | cs => leadingNum 10 decDigitVal cs

/-- JavaScript `parseInt(str)` (radix unspecified): skip leading whitespace, read an
optional sign, then the longest digit prefix; `none` models the `NaN` result. -/
def parseIntOpt (s : String) : Option Int :=
  match s.toList.dropWhile Char.isWhitespace with
  | '-' :: rest => (parseIntAbs rest).map (fun n => -(n : Int))
  | '+' :: rest => (parseIntAbs rest).map (fun n => (n : Int))
  | cs => (parseIntAbs cs).map (fun n => (n : Int))

/-- Truthiness of a possibly-`undefined` string (`undefined` and `""` are falsy). -/
def jsTruthyStr : Option String → Bool
  | none => false
  | some s => s != ""

/-- Truthiness of a possibly-`null` number (`null`/`undefined` and `0` are falsy). -/
def jsTruthyNum : Option Nat → Bool
  | none => false
  | some n => n != 0

/-! ## User model (`src/unnamed/part_005`, class `User`)

Only the authentication-relevant fields are carried; profile fields
(`firstName`, `bio`, …) and the bookkeeping timestamps (`updatedAt`,
`lastLogin`) play no role in any decision taken by the embedded code. -/

structure User where
  id : String
  role : String
  isActive : Bool
  isEmailVerified : Bool
  /-- `passwordChangedAt` as epoch milliseconds (`Date.prototype.getTime()`); `none` = `null`. -/
  passwordChangedAt : Option Nat
  loginAttempts : Nat
  /-- `lockUntil` as epoch milliseconds; `none` = `null`. -/
  lockUntil : Option Nat
deriving Repr, DecidableEq

/-- `User#isLocked` getter: `!!(this.lockUntil && this.lockUntil > Date.now())`. -/
def isLocked (u : User) (now : Nat) : Bool :=
  jsTruthyNum u.lockUntil && decide (now < u.lockUntil.getD 0)

/-- `User#incLoginAttempts`: restart at 1 if a previous lock has expired,
otherwise increment, locking for 2 hours on reaching 5 attempts. -/
def incLoginAttempts (u : User) (now : Nat) : User :=
  if jsTruthyNum u.lockUntil && decide (u.lockUntil.getD 0 < now) then
    { u with loginAttempts := 1, lockUntil := none }
  else if decide (u.loginAttempts + 1 ≥ 5) && ! isLocked u now then
    { u with loginAttempts := u.loginAttempts + 1,
             lockUntil := some (now + 2 * 60 * 60 * 1000) }
  else
    { u with loginAttempts := u.loginAttempts + 1 }

/-- `User#resetLoginAttempts`. -/
def resetLoginAttempts (u : User) : User :=
  { u with loginAttempts := 0, lockUntil := none }

/-! ## Login controller (`src/unnamed/part_004`, `login`, lines 457–512)

The body validation (missing email/password → 400) and the `User.findByEmail`
lookup (unknown email → 401) precede the steps modelled here; `login` below
starts from the located user record.  `comparePassword` is a bcrypt library
call, so its verdict enters as the boolean `passwordCorrect`. -/

inductive LoginResult
  | success
  | failure (status : Nat) (message : String)
deriving Repr, DecidableEq

/-- The login flow from the point where the user record has been found:
lock check (423), active check (401), password check (401 + attempt increment),
then reset of the attempt counter and success. -/
def login (u : User) (passwordCorrect : Bool) (now : Nat) : LoginResult × User :=
  if isLocked u now then
    (.failure 423 "Account is temporarily locked due to too many failed login attempts", u)
  else if ! u.isActive then
    (.failure 401 "Your account has been deactivated", u)
  else if ! passwordCorrect then
    (.failure 401 "Invalid email or password", incLoginAttempts u now)
  else
    (.success, if u.loginAttempts > 0 then resetLoginAttempts u else u)

/-- State after a sequence of failed login attempts at the given instants. -/
def failedLogins (u : User) (times : List Nat) : User :=
  times.foldl (fun s t => (login s false t).snd) u

/-! ## JWT authentication middleware (`src/unnamed/part_001`, lines 163–236)

`jwt.verify` is a library call; its possible outcomes (decoded payload,
`JsonWebTokenError`, `TokenExpiredError`, or any other throw) enter through the
`DecodeResult` value of the supplied `decode` function.  The user store
(`User.findById`) enters as the `findById` function. -/

inductive DecodeResult
  /-- Successful verification: payload id and `iat` (whole seconds since epoch). -/
  | ok (id : String) (iat : Nat)
  | jsonWebTokenError
  | tokenExpiredError
  /-- Any other exception inside the `try` block. -/
  | otherError
deriving Repr, DecidableEq

inductive JwtAuthResult
  /-- `req.user = currentUser; next()` — the downstream handler runs with this identity. -/
  | authenticated (u : User)
  /-- An early `res.status(status).json({error, message})` — the handler never runs. -/
  | rejected (status : Nat) (error : String) (message : String)
deriving Repr, DecidableEq

/-- Token extraction of the JWT variant: only the `Authorization: Bearer <token>`
header is consulted (no cookie), and the token is `header.split(' ')[1]`. -/
def bearerHeaderToken (authHeader : Option String) : Option String :=
  match authHeader with
  | some h => if strStartsWith h "Bearer " then (jsSplitChar ' ' h).get? 1 else none
  | none => none

/-- The JWT `authenticate` middleware: extract, verify, resolve the user,
check `isActive`, then the password-change staleness test
`decoded.iat < parseInt(passwordChangedAt.getTime() / 1000, 10)`
(`/ 1000` truncates to whole seconds, matching Nat division). -/
def authenticateJwt (authHeader : Option String) (decode : String → DecodeResult)
    (findById : String → Option User) : JwtAuthResult :=
  match bearerHeaderToken authHeader with
  | none => .rejected 401 "Access denied" "No token provided"
  | some t =>
    if t = "" then .rejected 401 "Access denied" "No token provided"
    else
      match decode t with
      | .jsonWebTokenError => .rejected 401 "Access denied" "Invalid token"
      | .tokenExpiredError => .rejected 401 "Access denied" "Token expired"
      | .otherError => .rejected 500 "Server error" "Error during authentication"
      | .ok uid iat =>
        match findById uid with
        | none => .rejected 401 "Access denied" "User no longer exists"
        | some u =>
          if ! u.isActive then .rejected 401 "Access denied" "Account is deactivated"
          else
            match u.passwordChangedAt with
            | some changedMs =>
              if iat < changedMs / 1000 then
                .rejected 401 "Access denied" "Password recently changed. Please login again."
              else .authenticated u
            | none => .authenticated u

/-! ## Mock authentication middleware (`src/unnamed/part_001`, lines 1–136)

The mock variant works over its own in-memory user array whose records carry a
numeric `id`, a `role` and an `isVerified` flag. -/

structure MockUser where
  id : Int
  role : String
  isVerified : Bool
deriving Repr, DecidableEq

/-- JavaScript number-or-`NaN`-or-`null` result of the mock token parse. -/
inductive JsParsed
  | null
  | nan
  | num (n : Int)
deriving Repr, DecidableEq

/-- `parseInt` as a JavaScript number: `NaN` when no digits can be read. -/
def parseIntNum (s : String) : JsParsed :=
  match parseIntOpt s with
  | some n => .num n
  | none => .nan

/-- `!x` on the result of the mock token parse (`null`, `NaN` and `0` are falsy). -/
def jsFalsyParsed : JsParsed → Bool
  | .null => true
  | .nan => true
  | .num n => n == 0

/-- The structural test of `extractUserIdFromToken`:
`parts.length >= 4 && parts[0] === 'mock' && parts[1] === 'jwt' && parts[2] === 'token'`
for `parts = token.split('-')`. -/
def mockTokenShape (token : String) : Bool :=
  let parts := jsSplitChar '-' token
  decide (parts.length ≥ 4) && (parts.getD 0 "" == "mock") &&
    (parts.getD 1 "" == "jwt") && (parts.getD 2 "" == "token")

/-- `extractUserIdFromToken` (`src/unnamed/part_001`, lines 19–26):
`parseInt(parts[3])` when the shape matches, `null` otherwise. -/
def extractUserIdFromToken (token : String) : JsParsed :=
  if mockTokenShape token then parseIntNum ((jsSplitChar '-' token).getD 3 "")
  else .null

/-- The request fields the mock middleware reads: the `Authorization` header and
the `jwt` cookie (each possibly absent). -/
structure MockRequest where
  authorization : Option String
  cookieJwt : Option String
deriving Repr, DecidableEq

/-- The cookie fallback branch: `else if (req.cookies && req.cookies.jwt) token = req.cookies.jwt`. -/
def cookieToken (r : MockRequest) : Option String :=
  match r.cookieJwt with
  | some c => if c = "" then none else some c
  | none => none

/-- Token extraction of the mock variant:
header branch when `req.headers.authorization` is truthy and starts with
`'Bearer'` (no trailing space), otherwise the `jwt` cookie. -/
def mockExtractToken (r : MockRequest) : Option String :=
  match r.authorization with
  | some h =>
    if h = "" then cookieToken r
    else if strStartsWith h "Bearer" then (jsSplitChar ' ' h).get? 1
    else cookieToken r
  | none => cookieToken r

inductive MockMwResult
  /-- `req.user = currentUser; next()`. -/
  | nextOk (u : MockUser)
  /-- `next(new AppError(message, status))` — the request goes to the error
  pipeline and the downstream handler never runs. -/
  | reject (status : Nat) (message : String)
deriving Repr, DecidableEq

/-- The mock `authenticate` middleware (`src/unnamed/part_001`, lines 39–74):
token presence, `extractUserIdFromToken`, `findUserById`
(`users.find(u => u.id === parseInt(id))`, the identity on integer ids), and
the `isVerified` check.  It performs no lock or password-change check. -/
def mockAuthenticate (users : List MockUser) (r : MockRequest) : MockMwResult :=
  match mockExtractToken r with
  | none => .reject 401 "You are not logged in! Please log in to get access."
  | some t =>
    if t = "" then .reject 401 "You are not logged in! Please log in to get access."
    else
      match extractUserIdFromToken t with
      | .null => .reject 401 "Invalid token. Please log in again!"
      | .nan => .reject 401 "Invalid token. Please log in again!"
      | .num n =>
        if n = 0 then .reject 401 "Invalid token. Please log in again!"
        else
          match users.find? (fun u => u.id == n) with
          | none => .reject 401 "The user belonging to this token no longer exists."
          | some u =>
            if ! u.isVerified then
              .reject 401 "Please verify your email before accessing this resource."
            else .nextOk u

/-! ## Authorization middlewares (`src/unnamed/part_002` and `src/unnamed/part_001`)

Route parameters are always strings in the HTTP framework; a body field can
also carry the owner id.  `paramVal` / `bodyVal` stand for
`req.params[field]` / `req.body[field]` (`none` = absent). -/

inductive AzResult
  | next
  | reject (status : Nat) (message : String)
deriving Repr, DecidableEq

/-- `authorizeOwnerOrAdmin(field)` (`src/unnamed/part_002`, lines 29–55):
401 without identity; admins pass; otherwise
`resourceUserId = req.params[field] || req.body[field]` and the request passes
iff `req.user.id === resourceUserId` (strict string equality; `undefined`
never equals the id). -/
def authorizeOwnerOrAdmin (user : Option User) (paramVal bodyVal : Option String) : AzResult :=
  match user with
  | none => .reject 401 "Authentication required"
  | some u =>
    if u.role = "admin" then .next
    else
      let resourceUserId := if jsTruthyStr paramVal then paramVal else bodyVal
      if resourceUserId = some u.id then .next
      else .reject 403 "You can only access your own resources"

/-- `isOwnerOrAdmin` (`src/unnamed/part_001`, lines 124–136):
`resourceUserId = req.params.userId || req.params.id || req.body.userId`, pass
iff admin or `req.user.id === parseInt(resourceUserId)`.  `parseInt` of a
missing value or of a digit-free string is `NaN`, which `===`-equals nothing,
so the comparison holds exactly when the resolved string parses to the user's
id — written here as `resourceUserId.bind parseIntOpt = some u.id`. -/
def isOwnerOrAdmin (user : Option MockUser)
    (paramsUserId paramsId bodyUserId : Option String) : AzResult :=
  match user with
  | none => .reject 401 "Authentication required"
  | some u =>
    let resourceUserId :=
      if jsTruthyStr paramsUserId then paramsUserId
      else if jsTruthyStr paramsId then paramsId
      else bodyUserId
    if u.role = "admin" ∨ resourceUserId.bind parseIntOpt = some u.id then .next
    else .reject 403 "You can only access your own resources"

/-! ## Course-instructor authorization (`src/unnamed/part_002`, lines 60–103) -/

structure Course where
  id : String
  instructorId : String
deriving Repr, DecidableEq

/-- `Course.findById` over the in-memory `courses` array
(`courses.find(c => c.id === id)`). -/
def findCourseById (courses : List Course) (id : String) : Option Course :=
  courses.find? (fun c => c.id == id)

inductive CourseAzResult
  /-- `next()`; `course` is the value stored in `req.course` (`none` when the
  admin short-circuit skipped the fetch and attached nothing). -/
  | next (course : Option Course)
  | reject (status : Nat) (message : String)
deriving Repr, DecidableEq

/-- `authorizeCourseInstructorOrAdmin(field)`: 401 without identity; an admin
passes immediately, before the course is fetched; otherwise the course id is
`req.params[field] || req.body[field]`, the course is fetched (404 when the id
is absent or unknown), the instructor must match (else 403), and on success the
course is attached to the request (`req.course = course`). -/
def authorizeCourseInstructorOrAdmin (user : Option User) (paramVal bodyVal : Option String)
    (courses : List Course) : CourseAzResult :=
  match user with
  | none => .reject 401 "Authentication required"
  | some u =>
    if u.role = "admin" then .next none
    else
      match (if jsTruthyStr paramVal then paramVal else bodyVal) with
      | none => .reject 404 "Course not found"
      | some cid =>
        match findCourseById courses cid with
        | none => .reject 404 "Course not found"
        | some course =>
          if course.instructorId ≠ u.id then
            .reject 403 "Only course instructor or admin can perform this action"
          else .next (some course)

/-! ## Error pipeline (`src/middleware/errorHandler.js`)

An error object is modelled by its own enumerable properties plus `message` and
`stack` (both own but non-enumerable on JavaScript `Error` instances, hence
dropped by the `{...err}` spread; the handler re-assigns `message` and never
reads the spread copy's `stack`).  `name` sits on `Error.prototype` for
`AppError` instances (so it is `none` here), while the recognised library
errors assign it as an own property in their constructors. -/

structure ErrObj where
  name : Option String
  /-- `err.code` (e.g. `11000` on a uniqueness violation). -/
  code : Option Int
  errmsg : Option String
  /-- `Object.values(err.errors).map(el => el.message)` source data of a
  validation aggregate; `none` when `err.errors` is `undefined`. -/
  errorsMsgs : Option (List String)
  path : Option String
  value : Option String
  message : String
  statusCode : Option Nat
  status : Option String
  isOperational : Bool
  stack : Option String
deriving Repr, DecidableEq

/-- `new AppError(message, statusCode)`: derived `status` label (`'fail'` when
the stringified code starts with `'4'`, else `'error'`), `isOperational = true`,
and the stack trace captured by `Error.captureStackTrace` (supplied here as the
`stack` argument). -/
def mkAppError (message : String) (statusCode : Nat) (stack : String) : ErrObj :=
  { name := none
  , code := none, errmsg := none, errorsMsgs := none, path := none, value := none
  , message := message
  , statusCode := some statusCode
  , status := some (if strStartsWith (toString statusCode) "4" then "fail" else "error")
  , isOperational := true
  , stack := some stack }

/-- Template interpolation of a possibly-`undefined` value. -/
def jsTemplate (o : Option String) : String := o.getD "undefined"

/-- `handleCastErrorDB`. -/
def handleCastErrorDB (err : ErrObj) : ErrObj :=
  mkAppError ("Invalid " ++ jsTemplate err.path ++ ": " ++ jsTemplate err.value) 400 ""

def dquote : Char := Char.ofNat 34

def squote : Char := Char.ofNat 39

/-- `.` of the regex: any character except a line terminator. -/
def isJsNewline (c : Char) : Bool :=
  c = Char.ofNat 10 || c = Char.ofNat 13 || c = Char.ofNat 8232 || c = Char.ofNat 8233

/-- Matching of `(\\?.)*?\1` after the opening quote `q`: lazily extend, each
unit consuming an optional (preferred) backslash plus one non-newline
character, until the closing quote; returns the consumed characters (closing
quote included).  `fuel` only forces structural recursion: every call shortens
the character list, so `fuel = cs.length` (as supplied by `quotedBody`) never
runs out before the list does. -/
def quotedBodyF (q : Char) : Nat → List Char → Option (List Char)
  | 0, _ => none
  | _ + 1, [] => none
  | fuel + 1, c :: rest =>
    if c = q then some [c]
    else if c = '\\' then
      match rest with
      | [] => none
      | d :: rest2 =>
        Option.orElse
          (if ! isJsNewline d then (quotedBodyF q fuel rest2).map (fun t => c :: d :: t) else none)
          (fun _ => (quotedBodyF q fuel (d :: rest2)).map (fun t => c :: t))
    else if ! isJsNewline c then (quotedBodyF q fuel rest).map (fun t => c :: t)
    else none

def quotedBody (q : Char) (cs : List Char) : Option (List Char) :=
  quotedBodyF q cs.length cs

/-- Leftmost match of `/(["'])(\\?.)*?\1/` over a character list. -/
def firstQuotedAux : List Char → Option String
  | [] => none
  | c :: rest =>
    if c = dquote || c = squote then
      match quotedBody c rest with
      | some t => some (String.mk (c :: t))
      | none => firstQuotedAux rest
    else firstQuotedAux rest

/-- `errmsg.match(/(["'])(\\?.)*?\1/)[0]`: the first quoted value of the
driver's duplicate-key message, `none` when the regex does not match. -/
def jsMatchFirstQuoted (s : String) : Option String := firstQuotedAux s.toList

/-- `handleDuplicateFieldsDB`; `none` models the `TypeError` thrown when
`err.errmsg` is `undefined` or the regex match is `null`. -/
def handleDuplicateFieldsDB (err : ErrObj) : Option ErrObj :=
  match err.errmsg with
  | none => none
  | some s =>
    match jsMatchFirstQuoted s with
    | none => none
    | some v =>
      some (mkAppError ("Duplicate field value: " ++ v ++ ". Please use another value!") 400 "")

/-- `handleValidationErrorDB`; `none` models the `TypeError` thrown when
`err.errors` is `undefined`. -/
def handleValidationErrorDB (err : ErrObj) : Option ErrObj :=
  match err.errorsMsgs with
  | none => none
  | some msgs =>
    some (mkAppError ("Invalid input data. " ++ String.intercalate ". " msgs) 400 "")

/-- `handleJWTError`. -/
def handleJWTError : ErrObj := mkAppError "Invalid token. Please log in again!" 401 ""

/-- `handleJWTExpiredError`. -/
def handleJWTExpiredError : ErrObj := mkAppError "Your token has expired! Please log in again." 401 ""

/-- Response body of `res.json(...)`: the API envelope (the `error` and `stack`
fields are emitted only when defined, since `JSON.stringify` drops `undefined`
values) or the rendered-website shape. -/
inductive ResBody
  | api (status : String) (message : String) (timestamp : String)
      (errorField : Option ErrObj) (stackField : Option String)
  | page (title : String) (msg : String)
deriving Repr, DecidableEq

structure HttpResponse where
  statusCode : Nat
  body : ResBody
deriving Repr, DecidableEq

/-- `sendErrorDev`: on `/api` URLs the full envelope with `error` and `stack`. -/
def sendErrorDev (err : ErrObj) (url nowIso : String) : HttpResponse :=
  if strStartsWith url "/api" then
    { statusCode := err.statusCode.getD 500
    , body := .api (err.status.getD "error") err.message nowIso (some err) err.stack }
  else
    { statusCode := err.statusCode.getD 500
    , body := .page "Something went wrong!" err.message }

/-- `sendErrorProd`: on `/api` URLs, operational errors expose their own status
and message; anything else is masked behind a generic 500 envelope. -/
def sendErrorProd (err : ErrObj) (url nowIso : String) : HttpResponse :=
  if strStartsWith url "/api" then
    if err.isOperational then
      { statusCode := err.statusCode.getD 500
      , body := .api (err.status.getD "error") err.message nowIso none none }
    else
      { statusCode := 500
      , body := .api "error" "Something went wrong!" nowIso none none }
  else
    if err.isOperational then
      { statusCode := err.statusCode.getD 500
      , body := .page "Something went wrong!" err.message }
    else
      { statusCode := err.statusCode.getD 500
      , body := .page "Something went wrong!" "Please try again later." }

/-- The defaults `err.statusCode = err.statusCode || 500` and
`err.status = err.status || 'error'` (`0` and `""` are falsy). -/
def applyDefaults (err : ErrObj) : ErrObj :=
  { err with
    statusCode := some (match err.statusCode with
      | some n => if n = 0 then 500 else n
      | none => 500)
  , status := some (match err.status with
      | some s => if s = "" then "error" else s
      | none => "error") }

/-- The production branch: `let error = {...err}; error.message = err.message`
(the spread keeps the own enumerable fields and loses `stack`; `message` is
re-assigned) followed by the five recognition steps.  `none` propagates a
`TypeError` thrown inside a recogniser. -/
def prodTransform (err : ErrObj) : Option ErrObj := do
  let e0 := { err with stack := none }
  let e1 := if e0.name = some "CastError" then handleCastErrorDB e0 else e0
  let e2 ← if e1.code = some 11000 then handleDuplicateFieldsDB e1 else some e1
  let e3 ← if e2.name = some "ValidationError" then handleValidationErrorDB e2 else some e2
  let e4 := if e3.name = some "JsonWebTokenError" then handleJWTError else e3
  let e5 := if e4.name = some "TokenExpiredError" then handleJWTExpiredError else e4
  some e5

/-- `globalErrorHandler`: default-fill status fields, log (the append-only log
write has no bearing on the response and is not modelled), then dispatch on
`NODE_ENV`.  `none` means the handler itself threw. -/
def globalErrorHandler (err : ErrObj) (url env nowIso : String) : Option HttpResponse :=
  let e := applyDefaults err
  if env = "development" then some (sendErrorDev e url nowIso)
  else (prodTransform e).map (fun e2 => sendErrorProd e2 url nowIso)

/-! ## Concrete records used by witnesses and counterexamples -/

/-- A freshly registered, active, verified user with a clean attempt counter. -/
def demoFresh : User :=
  { id := "u1", role := "student", isActive := true, isEmailVerified := true,
    passwordChangedAt := none, loginAttempts := 0, lockUntil := none }

/-- A user whose account is locked until epoch millisecond 9999999999. -/
def demoLocked : User := { demoFresh with loginAttempts := 5, lockUntil := some 9999999999 }

/-- A user whose password was last changed at epoch millisecond 500. -/
def demoStale : User := { demoFresh with passwordChangedAt := some 500 }

/-- A user with three failed attempts on record. -/
def demoTried : User := { demoFresh with loginAttempts := 3 }

/-! ## Result-status classifiers used by the amended claim C4 -/

/-- Every outcome of the JWT `authenticate` middleware is either a success or a
rejection with status 401 or 500 — in particular never 423. -/
def neverIssues423Jwt : JwtAuthResult → Prop
  | .rejected s _ _ => s = 401 ∨ s = 500
  | .authenticated _ => True

/-- Every outcome of the mock `authenticate` middleware is either a success or
a rejection with status 401 — in particular never 423. -/
def neverIssues423Mock : MockMwResult → Prop
  | .reject s _ => s = 401
  | .nextOk _ => True

/-! # The claims -/

/-- Claim C1 (confirmed).  Account lockout: (i) five consecutive failed login
attempts starting from a clean counter set `lockUntil` to exactly two hours
(7 200 000 ms) after the fifth attempt; (ii) while `lockUntil` lies strictly in
the future, every login attempt — with correct credentials or not — fails with
status 423 and leaves the record unchanged; (iii) a successful login while at
least one failure is on record (in particular any success before the fifth
failure) resets the attempt counter to 0 and clears `lockUntil`. -/
theorem c1_account_lockout :
    (∀ (u : User) (t1 t2 t3 t4 t5 : Nat),
        u.loginAttempts = 0 → u.lockUntil = none → u.isActive = true →
        (failedLogins u [t1, t2, t3, t4, t5]).lockUntil = some (t5 + 2 * 60 * 60 * 1000) ∧
        (failedLogins u [t1, t2, t3, t4, t5]).loginAttempts = 5) ∧
    (∀ (u : User) (pw : Bool) (now t : Nat), u.lockUntil = some t → now < t →
        login u pw now =
          (.failure 423 "Account is temporarily locked due to too many failed login attempts",
           u)) ∧
    (∀ (u : User) (now : Nat), isLocked u now = false → u.isActive = true →
        0 < u.loginAttempts →
        login u true now = (.success, { u with loginAttempts := 0, lockUntil := none })) := by
  refine ⟨fun u t1 t2 t3 t4 t5 h0 h1 h2 => ?_, fun u pw now t h hn => ?_,
    fun u now hl ha hn => ?_⟩
  · cases u
    simp only at h0 h1 h2
    subst h0 h1 h2
    simp [failedLogins, login, isLocked, incLoginAttempts, jsTruthyNum, resetLoginAttempts]
  · have ht : t ≠ 0 := by omega
    simp [login, isLocked, jsTruthyNum, h, ht, hn]
  · simp [login, hl, ha, hn, resetLoginAttempts]

/-- Witness for C1 at concrete inputs: five failures at instants 10…50 lock the
fresh demo user until 50 + 7 200 000; the locked demo user is refused with 423
despite a correct password; the demo user with three failures on record logs in
successfully and leaves with a cleared counter and lock. -/
theorem c1_account_lockout_witness :
    ((failedLogins demoFresh [10, 20, 30, 40, 50]).lockUntil = some (50 + 2 * 60 * 60 * 1000) ∧
     (failedLogins demoFresh [10, 20, 30, 40, 50]).loginAttempts = 5) ∧
    login demoLocked true 0 =
      (.failure 423 "Account is temporarily locked due to too many failed login attempts",
       demoLocked) ∧
    login demoTried true 0 =
      (.success, { demoTried with loginAttempts := 0, lockUntil := none }) :=
  ⟨c1_account_lockout.1 demoFresh 10 20 30 40 50 rfl rfl rfl,
   c1_account_lockout.2.1 demoLocked true 0 9999999999 rfl (by decide),
   c1_account_lockout.2.2 demoTried 0 (by decide) rfl (by decide)⟩

/-- Claim C2 (corrected) — counterexample.  The claim demands rejection whenever
the token's issued-at instant is strictly earlier than the password change.
Here the token was issued at the epoch second 0, i.e. at instant 0 ms
(`iat = 0`), and the password changed at instant 500 ms — strictly later — yet
the middleware authenticates the request, because it compares `iat` (0) with
`parseInt(500 / 1000) = 0` and `0 < 0` fails.  Sub-second precedence is
invisible to the whole-second comparison. -/
theorem c2_stale_token_counterexample :
    (0 * 1000 : Nat) < 500 ∧
    authenticateJwt (some "Bearer tok") (fun _ => .ok "u1" 0) (fun _ => some demoStale)
      = .authenticated demoStale :=
  ⟨by decide, by decide⟩

/-- Claim C2 (corrected) — amended claim.  For every token that decodes to
`(uid, iat)` and resolves to an active user whose password changed at
`changedMs`, the middleware rejects with 401 (attaching no identity — the
rejected outcome carries none) exactly under the code's whole-second test;
the amended hypothesis is `iat < changedMs / 1000` (truncating division),
i.e. the token's issued-at second strictly precedes the second of the
password change, rather than strict precedence of the underlying instants. -/
theorem c2_stale_token_amended (hdr : Option String) (t uid : String)
    (iat changedMs : Nat) (u : User)
    (decode : String → DecodeResult) (findById : String → Option User)
    (hx : bearerHeaderToken hdr = some t) (ht : t ≠ "")
    (hd : decode t = .ok uid iat) (hf : findById uid = some u)
    (ha : u.isActive = true) (hc : u.passwordChangedAt = some changedMs)
    (hlt : iat < changedMs / 1000) :
    authenticateJwt hdr decode findById
      = .rejected 401 "Access denied" "Password recently changed. Please login again." := by
  simp [authenticateJwt, hx, ht, hd, hf, ha, hc, hlt]

/-- Witness for the amended C2: a token issued in second 1 against a password
change at millisecond 2500 (second 2) is rejected as stale. -/
theorem c2_stale_token_amended_witness :
    authenticateJwt (some "Bearer tok") (fun _ => .ok "u1" 1)
        (fun _ => some { demoFresh with passwordChangedAt := some 2500 })
      = .rejected 401 "Access denied" "Password recently changed. Please login again." :=
  c2_stale_token_amended (some "Bearer tok") "tok" "u1" 1 2500
    { demoFresh with passwordChangedAt := some 2500 }
    (fun _ => .ok "u1" 1) (fun _ => some { demoFresh with passwordChangedAt := some 2500 })
    (by decide) (by decide) rfl rfl rfl rfl (by decide)

/-- Claim C3 (confirmed).  A request carrying no bearer token — no
`Authorization` header and no `jwt` cookie — is rejected with status 401 by
both `authenticate` variants; the result is an early rejection
(`next(AppError)` for the mock variant, an immediate `res.status(401).json`
for the JWT variant), so the downstream business handler never runs. -/
theorem c3_missing_token (users : List MockUser) (decode : String → DecodeResult)
    (findById : String → Option User) :
    mockAuthenticate users { authorization := none, cookieJwt := none }
      = .reject 401 "You are not logged in! Please log in to get access." ∧
    authenticateJwt none decode findById
      = .rejected 401 "Access denied" "No token provided" :=
  ⟨rfl, rfl⟩

/-- Claim C4 (corrected) — counterexample.  The claim says the authentication
middleware's state-validation step rejects a locked identity with 423.  The
demo user below is locked (its `lockUntil`, epoch ms 9999999999, is in the
future at `now = 0`), its token is valid, yet the JWT `authenticate`
middleware authenticates the request: no lock check exists in either
middleware. -/
theorem c4_lock_check_counterexample :
    isLocked demoLocked 0 = true ∧
    authenticateJwt (some "Bearer tok") (fun _ => .ok "u1" 5) (fun _ => some demoLocked)
      = .authenticated demoLocked :=
  ⟨by decide, by decide⟩

/-- Claim C4 (corrected) — amended claim.  Neither authentication middleware
consults `lockUntil` at all: the JWT variant only ever rejects with 401 or 500
and the mock variant only with 401 (never 423), for every request, token codec
and user store.  The 423 `AccountLocked` rejection for a lock-until in the
future is issued only by the login flow. -/
theorem c4_lock_check_amended :
    (∀ (hdr : Option String) (decode : String → DecodeResult)
        (findById : String → Option User),
        neverIssues423Jwt (authenticateJwt hdr decode findById)) ∧
    (∀ (users : List MockUser) (r : MockRequest),
        neverIssues423Mock (mockAuthenticate users r)) ∧
    (∀ (u : User) (pw : Bool) (now t : Nat), u.lockUntil = some t → now < t →
        login u pw now =
          (.failure 423 "Account is temporarily locked due to too many failed login attempts",
           u)) := by
  refine ⟨fun hdr decode findById => ?_, fun users r => ?_, fun u pw now t h hn => ?_⟩
  · unfold authenticateJwt
    rcases bearerHeaderToken hdr with _ | tk
    · simp [neverIssues423Jwt]
    · by_cases htk : tk = ""
      · simp [htk, neverIssues423Jwt]
      · rcases hd : decode tk with ⟨uid, iat⟩ | _ | _ | _ <;> simp [htk, hd, neverIssues423Jwt]
        rcases hf : findById uid with _ | u <;> simp [hf, neverIssues423Jwt]
        by_cases ha : u.isActive
        · rcases hc : u.passwordChangedAt with _ | ms <;> simp [ha, hc, neverIssues423Jwt]
          by_cases hlt : iat < ms / 1000 <;> simp [hlt, neverIssues423Jwt]
        · simp [ha, neverIssues423Jwt]
  · unfold mockAuthenticate
    rcases mockExtractToken r with _ | tk
    · simp [neverIssues423Mock]
    · by_cases htk : tk = ""
      · simp [htk, neverIssues423Mock]
      · rcases he : extractUserIdFromToken tk with _ | _ | n <;>
          simp [htk, he, neverIssues423Mock]
        by_cases hn : n = 0
        · simp [hn, neverIssues423Mock]
        · rcases hf : users.find? (fun u => u.id == n) with _ | u <;>
            simp [hn, hf, neverIssues423Mock]
          by_cases hv : u.isVerified <;> simp [hv, neverIssues423Mock]
  · have ht : t ≠ 0 := by omega
    simp [login, isLocked, jsTruthyNum, h, ht, hn]

/-- Witness for the amended C4: at a concrete request and store the JWT
middleware's outcome lies in the 401/500/authenticated range, the mock
middleware's in the 401/authenticated range, and the login flow refuses the
locked demo user with 423. -/
theorem c4_lock_check_amended_witness :
    neverIssues423Jwt (authenticateJwt none (fun _ => .ok "u1" 0) (fun _ => none)) ∧
    neverIssues423Mock (mockAuthenticate [] { authorization := none, cookieJwt := none }) ∧
    login demoLocked false 3 =
      (.failure 423 "Account is temporarily locked due to too many failed login attempts",
       demoLocked) :=
  ⟨c4_lock_check_amended.1 none (fun _ => .ok "u1" 0) (fun _ => none),
   c4_lock_check_amended.2.1 [] { authorization := none, cookieJwt := none },
   c4_lock_check_amended.2.2 demoLocked false 3 9999999999 rfl (by decide)⟩

/-- Claim C5 (confirmed).  Error-envelope round trip for an `AppError` with
status 404 and message `M` reaching the pipeline on an `/api` URL: in any
non-development (production) mode the body is exactly
`{status: "fail", message: M, timestamp}` (no `error`, no `stack` field),
and in development mode the same envelope additionally carries the `error`
object and the `stack` string. -/
theorem c5_error_envelope (M stackTrace url nowIso env : String)
    (hurl : strStartsWith url "/api" = true) (henv : env ≠ "development") :
    globalErrorHandler (mkAppError M 404 stackTrace) url env nowIso
      = some ⟨404, .api "fail" M nowIso none none⟩ ∧
    globalErrorHandler (mkAppError M 404 stackTrace) url "development" nowIso
      = some ⟨404, .api "fail" M nowIso (some (mkAppError M 404 stackTrace))
          (some stackTrace)⟩ := by
  have h4 : strStartsWith (toString (404 : Nat)) "4" = true := by decide
  constructor
  · simp [globalErrorHandler, henv, applyDefaults, mkAppError, prodTransform,
      sendErrorProd, hurl, h4]
  · simp [globalErrorHandler, applyDefaults, mkAppError, sendErrorDev, hurl, h4]

/-- Witness for C5 at a concrete 404 error on a concrete `/api` URL. -/
theorem c5_error_envelope_witness :
    globalErrorHandler (mkAppError "Resource not found" 404 "TRACE")
        "/api/v1/none" "production" "2026-01-01T00:00:00.000Z"
      = some ⟨404, .api "fail" "Resource not found" "2026-01-01T00:00:00.000Z" none none⟩ ∧
    globalErrorHandler (mkAppError "Resource not found" 404 "TRACE")
        "/api/v1/none" "development" "2026-01-01T00:00:00.000Z"
      = some ⟨404, .api "fail" "Resource not found" "2026-01-01T00:00:00.000Z"
          (some (mkAppError "Resource not found" 404 "TRACE")) (some "TRACE")⟩ :=
  c5_error_envelope "Resource not found" "TRACE" "/api/v1/none"
    "2026-01-01T00:00:00.000Z" "production" (by decide) (by decide)

/-- Claim C6 (confirmed).  In production mode on an `/api` URL each recognised
external failure is translated to a fixed status with its derived, unmasked
message: a malformed-identifier error (`CastError`) and a
uniqueness-constraint violation (`code 11000`) and a validation aggregate
(`ValidationError`) each yield 400, and the two token-codec failures
(`JsonWebTokenError`, `TokenExpiredError`) each yield 401; in every case the
response carries the human-readable derived message (the translated error is
operational, so it is not masked behind the generic 500 envelope). -/
theorem c6_known_failures :
    (∀ (err : ErrObj) (url nowIso p v : String),
        strStartsWith url "/api" = true → err.name = some "CastError" →
        err.path = some p → err.value = some v →
        globalErrorHandler err url "production" nowIso
          = some ⟨400, .api "fail" ("Invalid " ++ p ++ ": " ++ v) nowIso none none⟩) ∧
    (∀ (err : ErrObj) (url nowIso s v : String),
        strStartsWith url "/api" = true → err.name ≠ some "CastError" →
        err.code = some 11000 → err.errmsg = some s → jsMatchFirstQuoted s = some v →
        globalErrorHandler err url "production" nowIso
          = some ⟨400,
              .api "fail" ("Duplicate field value: " ++ v ++ ". Please use another value!")
                nowIso none none⟩) ∧
    (∀ (err : ErrObj) (url nowIso : String) (msgs : List String),
        strStartsWith url "/api" = true → err.name = some "ValidationError" →
        err.code ≠ some 11000 → err.errorsMsgs = some msgs →
        globalErrorHandler err url "production" nowIso
          = some ⟨400,
              .api "fail" ("Invalid input data. " ++ String.intercalate ". " msgs)
                nowIso none none⟩) ∧
    (∀ (err : ErrObj) (url nowIso : String),
        strStartsWith url "/api" = true → err.name = some "JsonWebTokenError" →
        err.code ≠ some 11000 →
        globalErrorHandler err url "production" nowIso
          = some ⟨401, .api "fail" "Invalid token. Please log in again!" nowIso none none⟩) ∧
    (∀ (err : ErrObj) (url nowIso : String),
        strStartsWith url "/api" = true → err.name = some "TokenExpiredError" →
        err.code ≠ some 11000 →
        globalErrorHandler err url "production" nowIso
          = some ⟨401,
              .api "fail" "Your token has expired! Please log in again." nowIso none none⟩) := by
  have h4 : strStartsWith (toString (400 : Nat)) "4" = true := by decide
  have h4a : strStartsWith (toString (401 : Nat)) "4" = true := by decide
  refine ⟨fun err url nowIso p v hurl hn hp hv => ?_,
    fun err url nowIso s v hurl hn hc he hm => ?_,
    fun err url nowIso msgs hurl hn hc he => ?_,
    fun err url nowIso hurl hn hc => ?_,
    fun err url nowIso hurl hn hc => ?_⟩
  · simp [globalErrorHandler, applyDefaults, prodTransform, handleCastErrorDB, mkAppError,
      jsTemplate, sendErrorProd, hurl, hn, hp, hv, h4]
  · simp [globalErrorHandler, applyDefaults, prodTransform, handleDuplicateFieldsDB, mkAppError,
      sendErrorProd, hurl, hn, hc, he, hm, h4]
  · simp [globalErrorHandler, applyDefaults, prodTransform, handleValidationErrorDB, mkAppError,
      sendErrorProd, hurl, hn, hc, he, h4]
  · simp [globalErrorHandler, applyDefaults, prodTransform, handleJWTError, mkAppError,
      sendErrorProd, hurl, hn, hc, h4a]
  · simp [globalErrorHandler, applyDefaults, prodTransform, handleJWTExpiredError, mkAppError,
      sendErrorProd, hurl, hn, hc, h4a]

/-- A malformed-identifier error as the database driver raises it. -/
def demoCastErr : ErrObj :=
  { name := some "CastError", code := none, errmsg := none, errorsMsgs := none,
    path := some "_id", value := some "abc123", message := "Cast to ObjectId failed",
    statusCode := none, status := none, isOperational := false, stack := some "S" }

/-- A uniqueness-constraint violation (`code 11000`). -/
def demoDupErr : ErrObj := { demoCastErr with
  name := some "MongoServerError",
  code := some 11000,
  errmsg := some "E11000 duplicate key error dup key: \"a@x.com\"",
  path := none, value := none }

/-- A validation aggregate error. -/
def demoValErr : ErrObj := { demoCastErr with
  name := some "ValidationError",
  errorsMsgs := some ["Email invalid", "Role invalid"],
  path := none, value := none }

/-- A token-codec signature failure. -/
def demoJwtErr : ErrObj := { demoCastErr with
  name := some "JsonWebTokenError",
  path := none, value := none }

/-- A token-codec expiry failure. -/
def demoJwtExpErr : ErrObj := { demoCastErr with
  name := some "TokenExpiredError",
  path := none, value := none }

/-- Witness for C6: each of the five recognised failure kinds, at a concrete
record, produces its fixed status and derived message. -/
theorem c6_known_failures_witness :
    globalErrorHandler demoCastErr "/api/x" "production" "T0"
      = some ⟨400, .api "fail" ("Invalid " ++ "_id" ++ ": " ++ "abc123") "T0" none none⟩ ∧
    globalErrorHandler demoDupErr "/api/x" "production" "T0"
      = some ⟨400,
          .api "fail" ("Duplicate field value: " ++ "\"a@x.com\"" ++ ". Please use another value!")
            "T0" none none⟩ ∧
    globalErrorHandler demoValErr "/api/x" "production" "T0"
      = some ⟨400,
          .api "fail" ("Invalid input data. " ++ String.intercalate ". "
            ["Email invalid", "Role invalid"]) "T0" none none⟩ ∧
    globalErrorHandler demoJwtErr "/api/x" "production" "T0"
      = some ⟨401, .api "fail" "Invalid token. Please log in again!" "T0" none none⟩ ∧
    globalErrorHandler demoJwtExpErr "/api/x" "production" "T0"
      = some ⟨401, .api "fail" "Your token has expired! Please log in again." "T0" none none⟩ :=
  ⟨c6_known_failures.1 demoCastErr "/api/x" "T0" "_id" "abc123" (by decide) rfl rfl rfl,
   c6_known_failures.2.1 demoDupErr "/api/x" "T0"
     "E11000 duplicate key error dup key: \"a@x.com\"" "\"a@x.com\""
     (by decide) (by decide) rfl rfl (by decide),
   c6_known_failures.2.2.1 demoValErr "/api/x" "T0" ["Email invalid", "Role invalid"]
     (by decide) rfl (by decide) rfl,
   c6_known_failures.2.2.2.1 demoJwtErr "/api/x" "T0" (by decide) rfl (by decide),
   c6_known_failures.2.2.2.2 demoJwtExpErr "/api/x" "T0" (by decide) rfl (by decide)⟩

/-- Claim C7 (confirmed).  Owner-or-admin authorization: without an attached
identity both guards reject with 401; with an identity, `authorizeOwnerOrAdmin`
lets the request proceed exactly when the role is `admin` or the id equals the
resource-owner id resolved from the route parameter (falling back to the body
field), and `isOwnerOrAdmin` exactly when the role is `admin` or the resolved
value (params.userId, else params.id, else body.userId) parses to the user's
numeric id; in every other case the rejection is 403. -/
theorem c7_owner_or_admin :
    (∀ (pv bv : Option String),
        authorizeOwnerOrAdmin none pv bv = .reject 401 "Authentication required") ∧
    (∀ (u : User) (pv bv : Option String),
        authorizeOwnerOrAdmin (some u) pv bv =
          if u.role = "admin" ∨ (if jsTruthyStr pv then pv else bv) = some u.id then .next
          else .reject 403 "You can only access your own resources") ∧
    (∀ (pu pid bu : Option String),
        isOwnerOrAdmin none pu pid bu = .reject 401 "Authentication required") ∧
    (∀ (u : MockUser) (pu pid bu : Option String),
        isOwnerOrAdmin (some u) pu pid bu =
          if u.role = "admin" ∨
              (if jsTruthyStr pu then pu
               else if jsTruthyStr pid then pid else bu).bind parseIntOpt = some u.id then .next
          else .reject 403 "You can only access your own resources") := by
  refine ⟨fun pv bv => rfl, fun u pv bv => ?_, fun pu pid bu => rfl, fun u pu pid bu => ?_⟩
  · by_cases hr : u.role = "admin"
    · simp [authorizeOwnerOrAdmin, hr]
    · by_cases ho : (if jsTruthyStr pv then pv else bv) = some u.id <;>
        simp [authorizeOwnerOrAdmin, hr, ho]
  · by_cases hr : u.role = "admin"
    · simp [isOwnerOrAdmin, hr]
    · by_cases ho : (if jsTruthyStr pu then pu
        else if jsTruthyStr pid then pid else bu).bind parseIntOpt = some u.id <;>
        simp [isOwnerOrAdmin, hr, ho]

/-- An admin identity. -/
def demoAdmin : User := { demoFresh with id := "a1", role := "admin" }

/-- An instructor identity owning `demoCourse`. -/
def demoInstructor : User := { demoFresh with id := "i1", role := "instructor" }

/-- A course taught by `demoInstructor`. -/
def demoCourse : Course := { id := "c1", instructorId := "i1" }

/-- A course taught by somebody else. -/
def demoCourse2 : Course := { id := "c2", instructorId := "i2" }

/-- Claim C8 (corrected) — counterexample.  The claim says that when the course
is absent the request is rejected with 404 and that on success the fetched
course is attached.  For an admin identity and an empty course store the
course `"c1"` is absent, yet the middleware proceeds (`next`) — the admin
short-circuit runs before the fetch — and attaches nothing. -/
theorem c8_course_instructor_counterexample :
    findCourseById ([] : List Course) "c1" = none ∧
    authorizeCourseInstructorOrAdmin (some demoAdmin) (some "c1") none [] = .next none :=
  ⟨rfl, rfl⟩

/-- Claim C8 (corrected) — amended claim.  Course-instructor authorization:
401 without an identity; an admin identity proceeds immediately, before any
fetch, with no course attached (even when the course does not exist); for a
non-admin identity the course id is resolved from the route parameter (body
fallback), an absent course gives 404, an instructor mismatch gives 403, and
a match proceeds with the fetched course attached to the request. -/
theorem c8_course_instructor_amended :
    (∀ (pv bv : Option String) (courses : List Course),
        authorizeCourseInstructorOrAdmin none pv bv courses
          = .reject 401 "Authentication required") ∧
    (∀ (u : User) (pv bv : Option String) (courses : List Course),
        u.role = "admin" →
        authorizeCourseInstructorOrAdmin (some u) pv bv courses = .next none) ∧
    (∀ (u : User) (pv bv : Option String) (courses : List Course) (cid : String),
        u.role ≠ "admin" → (if jsTruthyStr pv then pv else bv) = some cid →
        findCourseById courses cid = none →
        authorizeCourseInstructorOrAdmin (some u) pv bv courses
          = .reject 404 "Course not found") ∧
    (∀ (u : User) (pv bv : Option String) (courses : List Course) (cid : String)
        (course : Course),
        u.role ≠ "admin" → (if jsTruthyStr pv then pv else bv) = some cid →
        findCourseById courses cid = some course → course.instructorId ≠ u.id →
        authorizeCourseInstructorOrAdmin (some u) pv bv courses
          = .reject 403 "Only course instructor or admin can perform this action") ∧
    (∀ (u : User) (pv bv : Option String) (courses : List Course) (cid : String)
        (course : Course),
        u.role ≠ "admin" → (if jsTruthyStr pv then pv else bv) = some cid →
        findCourseById courses cid = some course → course.instructorId = u.id →
        authorizeCourseInstructorOrAdmin (some u) pv bv courses = .next (some course)) := by
  refine ⟨fun pv bv courses => rfl, fun u pv bv courses hr => ?_,
    fun u pv bv courses cid hr hcid hf => ?_,
    fun u pv bv courses cid course hr hcid hf hne => ?_,
    fun u pv bv courses cid course hr hcid hf heq => ?_⟩
  · simp [authorizeCourseInstructorOrAdmin, hr]
  · simp [authorizeCourseInstructorOrAdmin, hr, hcid, hf]
  · simp [authorizeCourseInstructorOrAdmin, hr, hcid, hf, hne]
  · simp [authorizeCourseInstructorOrAdmin, hr, hcid, hf, heq]

/-- Witness for the amended C8: the admin bypass, the 404, the 403 and the
attach-on-success branch, each at concrete stores and identities. -/
theorem c8_course_instructor_amended_witness :
    authorizeCourseInstructorOrAdmin (some demoAdmin) (some "c1") none [demoCourse]
      = .next none ∧
    authorizeCourseInstructorOrAdmin (some demoInstructor) (some "zzz") none [demoCourse]
      = .reject 404 "Course not found" ∧
    authorizeCourseInstructorOrAdmin (some demoInstructor) (some "c2") none
        [demoCourse, demoCourse2]
      = .reject 403 "Only course instructor or admin can perform this action" ∧
    authorizeCourseInstructorOrAdmin (some demoInstructor) (some "c1") none
        [demoCourse, demoCourse2]
      = .next (some demoCourse) :=
  ⟨c8_course_instructor_amended.2.1 demoAdmin (some "c1") none [demoCourse] rfl,
   c8_course_instructor_amended.2.2.1 demoInstructor (some "zzz") none [demoCourse] "zzz"
     (by decide) (by decide) (by decide),
   c8_course_instructor_amended.2.2.2.1 demoInstructor (some "c2") none
     [demoCourse, demoCourse2] "c2" demoCourse2 (by decide) (by decide) (by decide) (by decide),
   c8_course_instructor_amended.2.2.2.2 demoInstructor (some "c1") none
     [demoCourse, demoCourse2] "c1" demoCourse (by decide) (by decide) (by decide) rfl⟩

/-- Claim C9 (confirmed).  Every `AppError` — whatever its status code,
including 500 — is constructed with `isOperational = true`, so the production
`/api` response exposes its literal message (with the constructor's own status
and derived class label) instead of the masked generic envelope. -/
theorem c9_operational_apperror (m stackTrace url nowIso : String) (c : Nat)
    (hurl : strStartsWith url "/api" = true) :
    (mkAppError m c stackTrace).isOperational = true ∧
    globalErrorHandler (mkAppError m c stackTrace) url "production" nowIso
      = some ⟨(if c = 0 then 500 else c),
          .api (if strStartsWith (toString c) "4" then "fail" else "error")
            m nowIso none none⟩ := by
  constructor
  · rfl
  · by_cases hc : c = 0
    · subst hc
      simp [globalErrorHandler, applyDefaults, mkAppError, prodTransform, sendErrorProd, hurl]
      decide
    · by_cases h4 : strStartsWith (toString c) "4" = true <;>
        simp [globalErrorHandler, applyDefaults, mkAppError, prodTransform, sendErrorProd,
          hurl, hc, h4]

/-- Witness for C9 at status 500: the internal message is sent verbatim to the
client in production, not replaced by the generic mask. -/
theorem c9_operational_apperror_witness :
    (mkAppError "internal detail" 500 "S").isOperational = true ∧
    globalErrorHandler (mkAppError "internal detail" 500 "S") "/api/x" "production" "T0"
      = some ⟨500, .api "error" "internal detail" "T0" none none⟩ := by
  have h := c9_operational_apperror "internal detail" "S" "/api/x" "T0" 500 (by decide)
  simpa using h

/-- Claim C10 (corrected) — counterexample.  The claim says the extractor
returns either the integer parsed from the fourth dash-separated segment (when
the `mock-jwt-token-…` shape matches) or `null`.  The token below matches the
shape but its fourth segment `"x"` contains no digits, so `parseInt` yields
`NaN` — which is neither an integer nor `null`. -/
theorem c10_total_extraction_counterexample :
    mockTokenShape "mock-jwt-token-x-1" = true ∧
    extractUserIdFromToken "mock-jwt-token-x-1" = .nan ∧
    JsParsed.nan ≠ JsParsed.null :=
  ⟨by decide, by decide, by decide⟩

/-- Claim C10 (corrected) — amended claim.  The extractor is a total function
on strings: a string not of the `mock-jwt-token-…` shape yields `null`; a
string of that shape yields `parseInt` of the fourth segment — the parsed
integer when the segment starts with one, `NaN` otherwise.  Any falsy result
(`null`, `NaN`, or the integer `0`) makes the mock middleware reject the
request as an invalid token with 401. -/
theorem c10_total_extraction_amended :
    (∀ s : String, mockTokenShape s = false → extractUserIdFromToken s = .null) ∧
    (∀ (s : String) (n : Int), mockTokenShape s = true →
        parseIntOpt ((jsSplitChar '-' s)[3]?.getD "") = some n →
        extractUserIdFromToken s = .num n) ∧
    (∀ s : String, mockTokenShape s = true →
        parseIntOpt ((jsSplitChar '-' s)[3]?.getD "") = none →
        extractUserIdFromToken s = .nan) ∧
    (∀ (users : List MockUser) (r : MockRequest) (t : String),
        mockExtractToken r = some t → t ≠ "" →
        jsFalsyParsed (extractUserIdFromToken t) = true →
        mockAuthenticate users r = .reject 401 "Invalid token. Please log in again!") := by
  refine ⟨fun s hs => ?_, fun s n hs hp => ?_, fun s hs hp => ?_,
    fun users r t hx ht hf => ?_⟩
  · simp [extractUserIdFromToken, hs]
  · simp [extractUserIdFromToken, parseIntNum, hs, hp]
  · simp [extractUserIdFromToken, parseIntNum, hs, hp]
  · rcases he : extractUserIdFromToken t with _ | _ | n
    · simp [mockAuthenticate, hx, ht, he]
    · simp [mockAuthenticate, hx, ht, he]
    · rw [he] at hf
      simp [jsFalsyParsed] at hf
      simp [mockAuthenticate, hx, ht, he, hf]

/-- Witness for the amended C10: a shapeless string gives `null`, a well-formed
token gives its id, an empty fourth segment gives `NaN`, and a shaped token
with a digit-free id segment is rejected as an invalid token. -/
theorem c10_total_extraction_amended_witness :
    extractUserIdFromToken "garbage" = .null ∧
    extractUserIdFromToken "mock-jwt-token-7-99" = .num 7 ∧
    extractUserIdFromToken "mock-jwt-token--99" = .nan ∧
    mockAuthenticate []
        { authorization := some "Bearer mock-jwt-token-x-1", cookieJwt := none }
      = .reject 401 "Invalid token. Please log in again!" :=
  ⟨c10_total_extraction_amended.1 "garbage" (by decide),
   c10_total_extraction_amended.2.1 "mock-jwt-token-7-99" 7 (by decide) (by decide),
   c10_total_extraction_amended.2.2.1 "mock-jwt-token--99" (by decide) (by decide),
   c10_total_extraction_amended.2.2.2 []
     { authorization := some "Bearer mock-jwt-token-x-1", cookieJwt := none }
     "mock-jwt-token-x-1" (by decide) (by decide) (by decide)⟩

end LMS
